import Mathlib

/-!
Verification of the portfolio risk assessment and limit enforcement engine
(`app/api/endpoints/risk_management.py` and `app/schemas/risk_management.py`).

The Python handlers are embedded as pure Lean functions:
* floats become `ℚ` (all claim-relevant arithmetic in the source is exact
  field arithmetic; the `sqrt`-based fields `var95`, `var99`, `sharpe_ratio`
  and the wall-clock timestamps are not mentioned by any stated property and
  are omitted from the embedded `PortfolioRisk` record),
* the global in-memory stores become explicit state (`List RiskLimit`,
  `List Position`) threaded through the operations,
* endpoint error responses become an `ErrorPayload` carried in `Except`.
-/

/-- `PositionSide` enum from `schemas/risk_management.py`. -/
inductive PositionSide where
  | long
  | short
deriving DecidableEq, Repr

/-- `RiskLevel` enum from `schemas/risk_management.py`. -/
inductive RiskLevel where
  | low
  | medium
  | high
  | critical
deriving DecidableEq, Repr

/-- `LimitType` enum from `schemas/risk_management.py`. -/
inductive LimitType where
  | position_size
  | exposure
  | leverage
  | daily_loss
  | daily_volume
deriving DecidableEq, Repr

/-- `LimitStatus` enum from `schemas/risk_management.py`. -/
inductive LimitStatus where
  | active
  | breached
  | disabled
deriving DecidableEq, Repr

/-- `Position` schema (claim-relevant fields; `id`, the price protections and
the timestamps are never read by the embedded handlers). -/
structure Position where
  user_id : String
  symbol : String
  side : PositionSide
  size : ℚ
  entry_price : ℚ
  current_price : ℚ
  margin_used : ℚ
  unrealized_pnl : ℚ
  leverage : ℚ
deriving DecidableEq, Repr

/-- `PortfolioRisk` schema (rational-valued fields; see the module note). -/
structure PortfolioRisk where
  total_exposure : ℚ
  total_portfolio_value : ℚ
  exposure_percentage : ℚ
  risk_score : ℚ
  max_drawdown : ℚ
  concentration_risk : ℚ
  correlation_risk : ℚ
  liquidity_risk : ℚ
  market_risk : ℚ
deriving DecidableEq, Repr

/-- `RiskExposure` schema (per-position risk record, minus uuid/timestamp). -/
structure RiskExposure where
  user_id : String
  symbol : String
  position_value : ℚ
  exposure_percentage : ℚ
  risk_score : ℚ
  leverage_used : ℚ
  margin_used : ℚ
  available_margin : ℚ
  risk_level : RiskLevel
deriving DecidableEq, Repr

/-- `RiskLimit` schema (minus timestamps). -/
structure RiskLimit where
  id : String
  user_id : String
  symbol : String
  limit_type : LimitType
  limit_value : ℚ
  current_value : ℚ
  status : LimitStatus
  auto_close : Bool
deriving DecidableEq, Repr

/-- `CreateRiskLimitRequest` schema. -/
structure CreateRiskLimitRequest where
  symbol : String
  limit_type : LimitType
  limit_value : ℚ
  auto_close : Bool
deriving DecidableEq, Repr

/-- `UpdateRiskLimitRequest` schema. -/
structure UpdateRiskLimitRequest where
  id : String
  limit_value : Option ℚ
  status : Option LimitStatus
  auto_close : Option Bool
deriving DecidableEq, Repr

/-- The `{'code': ..., 'message': ...}` error dictionaries returned by the
endpoints. -/
structure ErrorPayload where
  code : String
  message : String
deriving DecidableEq, Repr

/-- `VALID_LIMIT_TYPES` from `risk_management.py` (lines 61-67). -/
def VALID_LIMIT_TYPES : List LimitType :=
  [LimitType.position_size, LimitType.exposure, LimitType.leverage,
   LimitType.daily_loss, LimitType.daily_volume]

/-- The filter `p.user_id == user_id and p.unrealized_pnl != 0` applied to the
position store at the top of `calculate_portfolio_risk_metrics` (line 91),
`calculate_position_risks` (line 214) and `perform_stress_test` (line 429). -/
def userScoredPositions (ps : List Position) (uid : String) : List Position :=
  ps.filter (fun p => decide (p.user_id = uid ∧ p.unrealized_pnl ≠ 0))

/-- Running sum of `abs(p.size * p.current_price)` (accumulator style, as the
Python loops accumulate from `0.0`). -/
def sumAbsValue (l : List Position) : ℚ :=
  l.foldl (fun a p => a + |p.size * p.current_price|) 0

/-- Running sum of the signed `p.size * p.current_price`. -/
def sumValue (l : List Position) : ℚ :=
  l.foldl (fun a p => a + p.size * p.current_price) 0

/-- Running sum of `abs(p.unrealized_pnl)`. -/
def sumAbsPnl (l : List Position) : ℚ :=
  l.foldl (fun a p => a + |p.unrealized_pnl|) 0

/-- Insertion-ordered keys of the `symbol_exposure` dict built in
`calculate_portfolio_risk_metrics` (lines 116-124). -/
def distinctSymbols (l : List Position) : List String :=
  l.foldl (fun acc p => if p.symbol ∈ acc then acc else acc ++ [p.symbol]) []

/-- The value stored under key `sym` of the `symbol_exposure` dict. -/
def symbolExposure (l : List Position) (sym : String) : ℚ :=
  sumAbsValue (l.filter (fun p => decide (p.symbol = sym)))

/-- `max(symbol_exposure.values()) if symbol_exposure else 0` (line 133). -/
def maxSymbolExposure (l : List Position) : ℚ :=
  match (distinctSymbols l).map (symbolExposure l) with
  | [] => 0
  | v :: vs => vs.foldl max v

/-- The neutral snapshot returned for an empty portfolio and on calculation
failure (lines 95-109 and 191-205). -/
def neutralPortfolioRisk : PortfolioRisk :=
  { total_exposure := 0
    total_portfolio_value := 0
    exposure_percentage := 0
    risk_score := 50
    max_drawdown := 0
    concentration_risk := 0
    correlation_risk := 0
    liquidity_risk := 0
    market_risk := 0 }

/-- `calculate_portfolio_risk_metrics` (lines 84-205), with the position store
and user id as explicit arguments. -/
def calculate_portfolio_risk_metrics (ps : List Position) (uid : String) :
    PortfolioRisk :=
  let ups := userScoredPositions ps uid
  if ups = [] then neutralPortfolioRisk
  else
    let total_exposure := sumAbsValue ups
    let total_portfolio_value := sumValue ups
    let exposure_percentage :=
      if total_portfolio_value > 0 then
        total_exposure / |total_portfolio_value| * 100
      else 0
    let concentration_risk :=
      if total_exposure > 0 then maxSymbolExposure ups / total_exposure * 100
      else 0
    let leveragedCount := (ups.filter (fun p => decide (p.leverage > 1))).length
    let leverage_share := (leveragedCount : ℚ) / (ups.length : ℚ)
    let symbol_count := (distinctSymbols ups).length
    let diversification_score := max 0 (((10 : ℚ) - symbol_count) / 10 * 20)
    let volatility_risk := min (total_exposure / 100000 * 10) 10
    let risk_score :=
      max 0 (min (min (concentration_risk * (4/10)) 40
                  + min (leverage_share * 30) 30
                  + diversification_score
                  + volatility_risk) 100)
    { total_exposure := total_exposure
      total_portfolio_value := total_portfolio_value
      exposure_percentage := exposure_percentage
      risk_score := risk_score
      max_drawdown := min (risk_score / 100 * (2/10)) (2/10)
      concentration_risk := concentration_risk
      correlation_risk := concentration_risk * (6/10)
      liquidity_risk := min (if symbol_count < 3 then (1/10) else 0) (1/10)
      market_risk := volatility_risk * 10 }

/-- The `risk_score > 80 / > 60 / > 30` classification used in
`calculate_position_risks` (lines 230-236) and `get_risk_assessment`. -/
def riskLevelOf (score : ℚ) : RiskLevel :=
  if score > 80 then RiskLevel.critical
  else if score > 60 then RiskLevel.high
  else if score > 30 then RiskLevel.medium
  else RiskLevel.low

/-- The per-position score of `calculate_position_risks` (lines 222-227).
Python's conditional expression binds looser than `+`, so the whole sum is
guarded by `position_value > 0`. -/
def positionRiskScore (p : Position) : ℚ :=
  let position_value := |p.size * p.current_price|
  min (if position_value > 0 then
         (p.leverage - 1) * 10
         + (if position_value > 10000 then 20 else 0)
         + |p.unrealized_pnl / position_value * 100|
       else 0)
    100

/-- `calculate_position_risks` (lines 208-258). -/
def calculate_position_risks (ps : List Position) (uid : String) :
    List RiskExposure :=
  (userScoredPositions ps uid).map (fun p =>
    let position_value := |p.size * p.current_price|
    let score := positionRiskScore p
    { user_id := uid
      symbol := p.symbol
      position_value := position_value
      exposure_percentage := position_value / 100000 * 100
      risk_score := score
      leverage_used := p.leverage
      margin_used := p.margin_used
      available_margin := p.current_price * p.size * (1/10)
      risk_level := riskLevelOf score })

/-- The fixed recommendation strings of `generate_risk_recommendations`. -/
def recCriticallyHigh : String :=
  "Your portfolio risk is critically high. Consider reducing position sizes or closing some positions."

/-- Elevated-risk recommendation string. -/
def recElevated : String :=
  "Your portfolio risk is elevated. Monitor positions closely and consider risk reduction strategies."

/-- Concentration recommendation string. -/
def recConcentrated : String :=
  "Your portfolio is highly concentrated. Consider diversifying across more symbols."

/-- Exposure-ratio recommendation string. -/
def recExposureHigh : String :=
  "Your exposure ratio is very high. Consider reducing leverage or position sizes."

/-- Per-position critical-risk recommendation (an f-string in the source). -/
def recPositionCritical (sym : String) : String :=
  "Position in " ++ (sym ++ " has critical risk level. Immediate action recommended.")

/-- Per-position high-leverage recommendation (an f-string in the source). -/
def recHighLeverage (sym : String) : String :=
  "High leverage detected in " ++ (sym ++ ". Consider reducing leverage.")

/-- Fallback recommendation string. -/
def recAcceptable : String :=
  "Your risk levels appear to be within acceptable ranges. Continue monitoring."

/-- The recommendation list accumulated by the conditional `append` calls of
`generate_risk_recommendations` (lines 266-285), before the emptiness
fallback. -/
def accumulatedRecommendations (pr : PortfolioRisk)
    (prs : List RiskExposure) : List String :=
  (if pr.risk_score > 80 then [recCriticallyHigh]
   else if pr.risk_score > 60 then [recElevated] else [])
  ++ (if pr.concentration_risk > 50 then [recConcentrated] else [])
  ++ (if pr.exposure_percentage > 200 then [recExposureHigh] else [])
  ++ prs.flatMap (fun r =>
      if r.risk_level = RiskLevel.critical then [recPositionCritical r.symbol]
      else if r.risk_level = RiskLevel.high ∧ r.leverage_used > 5 then
        [recHighLeverage r.symbol]
      else [])

/-- `generate_risk_recommendations` (lines 261-290): the accumulated
conditional recommendations, with the `if not recommendations` fallback. -/
def generate_risk_recommendations (pr : PortfolioRisk)
    (prs : List RiskExposure) : List String :=
  if accumulatedRecommendations pr prs = [] then [recAcceptable]
  else accumulatedRecommendations pr prs

/-- Per-position loss in `perform_stress_test` (lines 436-439):
`size * (price * (1 - shock/100)) - size * price`. -/
def stressLoss (shock : ℚ) (p : Position) : ℚ :=
  p.size * (p.current_price * (1 - shock / 100)) - p.size * p.current_price

/-- `total_stress_loss` accumulated over the user's scored positions
(lines 429-440). -/
def totalStressLoss (ps : List Position) (uid : String) (shock : ℚ) : ℚ :=
  (userScoredPositions ps uid).foldl (fun acc p => acc + stressLoss shock p) 0

/-- `CACHE_DURATION = 5 * 60` (line 58). -/
def CACHE_DURATION : Nat := 5 * 60

/-- The liveness test of `get_risk_assessment` (line 352): Python evaluates
`(utcnow() - timestamp).seconds`, the seconds *component* of the timedelta,
which for a nonnegative whole-second age equals `age % 86400`. -/
def cacheServes (ageSeconds : Nat) : Bool :=
  decide (ageSeconds % 86400 < CACHE_DURATION)

/-- The cache branch of `get_risk_assessment` (lines 348-357): given the entry
timestamp (if any) and the current time, decide whether the stored assessment
is returned verbatim (no recomputation). -/
def getAssessmentServedFromCache (entryTime : Option Nat) (now : Nat) : Bool :=
  match entryTime with
  | some t => cacheServes (now - t)
  | none => false

/-- Error payload for `limit_value <= 0` (lines 610-618 and 731-740). -/
def invalidValuePayload : ErrorPayload :=
  { code := "INVALID_LIMIT_VALUE", message := "Limit value must be greater than 0" }

/-- Error payload for a duplicate active limit (lines 640-648); note it
carries only a fixed code and message. -/
def conflictPayload : ErrorPayload :=
  { code := "LIMIT_EXISTS", message := "An active limit already exists for this symbol and limit type" }

/-- Error payload for an unknown limit id (lines 706-714 and 792-800). -/
def notFoundPayload : ErrorPayload :=
  { code := "NOT_FOUND", message := "Risk limit not found" }

/-- Error payload for a limit owned by another user (lines 717-725). -/
def forbiddenUpdatePayload : ErrorPayload :=
  { code := "FORBIDDEN", message := "You can only modify your own risk limits" }

/-- Error payload for deleting a limit owned by another user (lines 803-811). -/
def forbiddenDeletePayload : ErrorPayload :=
  { code := "FORBIDDEN", message := "You can only delete your own risk limits" }

/-- Error payload for an invalid limit type (lines 620-628; the message's
list interpolation is abbreviated since every `LimitType` is valid). -/
def invalidTypePayload : ErrorPayload :=
  { code := "INVALID_LIMIT_TYPE", message := "Invalid limit type" }

/-- `create_risk_limit` (lines 595-683): validation, duplicate-active check,
then append.  Returns the new store together with the endpoint result. -/
def create_risk_limit (s : List RiskLimit) (uid : String)
    (req : CreateRiskLimitRequest) (newId : String) :
    List RiskLimit × Except ErrorPayload RiskLimit :=
  if req.limit_value ≤ 0 then (s, Except.error invalidValuePayload)
  else if req.limit_type ∉ VALID_LIMIT_TYPES then
    (s, Except.error invalidTypePayload)
  else
    match s.find? (fun l => decide (l.user_id = uid ∧ l.symbol = req.symbol ∧
        l.limit_type = req.limit_type ∧ l.status = LimitStatus.active)) with
    | some _ => (s, Except.error conflictPayload)
    | none =>
      let newLimit : RiskLimit :=
        { id := newId, user_id := uid, symbol := req.symbol
          limit_type := req.limit_type, limit_value := req.limit_value
          current_value := 0, status := LimitStatus.active
          auto_close := req.auto_close }
      (s ++ [newLimit], Except.ok newLimit)

/-- The field updates applied by `update_risk_limit` (lines 728-751). -/
def applyLimitUpdate (req : UpdateRiskLimitRequest) (l : RiskLimit) : RiskLimit :=
  let l1 := match req.limit_value with
    | some v => { l with limit_value := v }
    | none => l
  let l2 := match req.status with
    | some st => { l1 with status := st }
    | none => l1
  match req.auto_close with
  | some b => { l2 with auto_close := b }
  | none => l2

/-- Replace the first element satisfying `p` (the Python handler mutates the
first limit found by id). -/
def modifyFirst (p : α → Bool) (f : α → α) : List α → List α
  | [] => []
  | x :: xs => if p x then f x :: xs else x :: modifyFirst p f xs

/-- `update_risk_limit` (lines 686-769): lookup by id, ownership check,
`limit_value > 0` validation, then in-place field updates. -/
def update_risk_limit (s : List RiskLimit) (uid : String)
    (req : UpdateRiskLimitRequest) :
    List RiskLimit × Except ErrorPayload RiskLimit :=
  match s.find? (fun l => decide (l.id = req.id)) with
  | none => (s, Except.error notFoundPayload)
  | some l =>
    if l.user_id ≠ uid then (s, Except.error forbiddenUpdatePayload)
    else if (match req.limit_value with | some v => decide (v ≤ 0) | none => false) then
      (s, Except.error invalidValuePayload)
    else
      (modifyFirst (fun l => decide (l.id = req.id)) (applyLimitUpdate req) s,
       Except.ok (applyLimitUpdate req l))

/-- `delete_risk_limit` (lines 772-832): lookup by id, ownership check, then
removal of the first matching limit. -/
def delete_risk_limit (s : List RiskLimit) (uid : String) (limitId : String) :
    List RiskLimit × Except ErrorPayload Unit :=
  match s.find? (fun l => decide (l.id = limitId)) with
  | none => (s, Except.error notFoundPayload)
  | some l =>
    if l.user_id ≠ uid then (s, Except.error forbiddenDeletePayload)
    else (s.eraseP (fun l => decide (l.id = limitId)), Except.ok ())

/-- `max(p.leverage for p in user_positions) if user_positions else 0`
(lines 314 and 552-555). -/
def maxLeverage : List Position → ℚ
  | [] => 0
  | p :: rest => rest.foldl (fun a q => max a q.leverage) p.leverage

/-- The per-`limit_type` current value computed by `check_limit_breaches`
(lines 300-318); `daily_volume` has no branch so the initial `0.0` stands. -/
def breachCurrentValue (ps : List Position) (uid : String) (l : RiskLimit) : ℚ :=
  match l.limit_type with
  | LimitType.position_size =>
      sumAbsValue (ps.filter (fun p => decide (p.user_id = uid ∧ p.symbol = l.symbol)))
  | LimitType.exposure =>
      sumAbsValue (ps.filter (fun p => decide (p.user_id = uid)))
  | LimitType.leverage =>
      maxLeverage (ps.filter (fun p => decide (p.user_id = uid ∧ p.symbol = l.symbol)))
  | LimitType.daily_loss =>
      sumAbsPnl (ps.filter (fun p => decide (p.user_id = uid)))
  | LimitType.daily_volume => 0

/-- The mutation `check_limit_breaches` performs on a single stored limit
(lines 298-324): only the user's `active` limits are examined, and a limit is
touched only when its freshly computed value exceeds `limit_value`. -/
def breachUpdate (ps : List Position) (uid : String) (l : RiskLimit) : RiskLimit :=
  if l.user_id = uid ∧ l.status = LimitStatus.active then
    if breachCurrentValue ps uid l > l.limit_value then
      { l with current_value := breachCurrentValue ps uid l
               status := LimitStatus.breached }
    else l
  else l

/-- `check_limit_breaches` as a store transformation (the Python function
mutates the shared `risk_limits` list in place). -/
def check_limit_breaches (ps : List Position) (uid : String)
    (s : List RiskLimit) : List RiskLimit :=
  s.map (breachUpdate ps uid)

/-- The `current_value` refresh `get_risk_limits` applies to each listed limit
(lines 542-555): reset to `0.0`, then recompute for `position_size`,
`exposure` and `leverage` only. -/
def refreshLimit (ps : List Position) (uid : String) (l : RiskLimit) : RiskLimit :=
  match l.limit_type with
  | LimitType.position_size =>
      { l with current_value :=
          sumAbsValue (ps.filter (fun p => decide (p.user_id = uid ∧ p.symbol = l.symbol))) }
  | LimitType.exposure =>
      { l with current_value :=
          sumAbsValue (ps.filter (fun p => decide (p.user_id = uid))) }
  | LimitType.leverage =>
      { l with current_value :=
          maxLeverage (ps.filter (fun p => decide (p.user_id = uid ∧ p.symbol = l.symbol))) }
  | _ => { l with current_value := 0 }

/-- The `user_id`/`limit_type`/`symbol` filter of `get_risk_limits`
(lines 532-539). -/
def matchesFilters (uid : String) (ft : Option LimitType) (fs : Option String)
    (l : RiskLimit) : Bool :=
  decide (l.user_id = uid)
  && (match ft with | some t => decide (l.limit_type = t) | none => true)
  && (match fs with | some sy => decide (l.symbol = sy) | none => true)

/-- The net effect of one `get_risk_limits` call on a single stored limit:
the refresh loop touches the limits passing the filters, then
`check_limit_breaches` runs over the store (lines 542-559). -/
def limitStep (ps : List Position) (uid : String) (ft : Option LimitType)
    (fs : Option String) (l : RiskLimit) : RiskLimit :=
  breachUpdate ps uid (if matchesFilters uid ft fs l then refreshLimit ps uid l else l)

/-- The store after one `get_risk_limits` call. -/
def get_risk_limits_store (ps : List Position) (uid : String)
    (ft : Option LimitType) (fs : Option String) (s : List RiskLimit) :
    List RiskLimit :=
  s.map (limitStep ps uid ft fs)

/-- The operations of the Risk Limit Manager, acting on the limit store. -/
inductive LimitOp where
  | create (uid : String) (req : CreateRiskLimitRequest) (newId : String)
  | update (uid : String) (req : UpdateRiskLimitRequest)
  | delete (uid : String) (limitId : String)
  | breachCheck (ps : List Position) (uid : String)
deriving DecidableEq, Repr

/-- Apply one operation; an operation that returns an error response leaves
the store unchanged (as the Python handlers do). -/
def runOp (s : List RiskLimit) : LimitOp → List RiskLimit × Bool
  | LimitOp.create uid req newId =>
      let r := create_risk_limit s uid req newId
      (r.1, r.2.toBool)
  | LimitOp.update uid req =>
      let r := update_risk_limit s uid req
      (r.1, r.2.toBool)
  | LimitOp.delete uid limitId =>
      let r := delete_risk_limit s uid limitId
      (r.1, r.2.toBool)
  | LimitOp.breachCheck ps uid => (check_limit_breaches ps uid s, true)

/-- Run a sequence of operations from a starting store. -/
def runOps (s : List RiskLimit) : List LimitOp → List RiskLimit
  | [] => s
  | op :: rest => runOps (runOp s op).1 rest

/-- Two stored limits witness a duplicate when both are `active` with the
same `(user_id, symbol, limit_type)` triple. -/
def dupActive (a b : RiskLimit) : Prop :=
  a.status = LimitStatus.active ∧ b.status = LimitStatus.active ∧
  a.user_id = b.user_id ∧ a.symbol = b.symbol ∧ a.limit_type = b.limit_type

instance : DecidableRel dupActive := fun a b => by
  unfold dupActive; infer_instance

/-- The uniqueness invariant: at most one `active` limit per
`(user_id, symbol, limit_type)` triple. -/
def atMostOneActive (s : List RiskLimit) : Prop :=
  s.Pairwise (fun a b => ¬ dupActive a b)

instance (s : List RiskLimit) : Decidable (atMostOneActive s) := by
  unfold atMostOneActive; infer_instance

theorem foldl_add_map (f : α → ℚ) (l : List α) (c : ℚ) :
    l.foldl (fun a x => a + f x) c = c + (l.map f).sum := by
  induction l generalizing c with
  | nil => simp
  | cons x xs ih => simp [ih]; ring

theorem sumAbsValue_eq (l : List Position) :
    sumAbsValue l = (l.map (fun p => |p.size * p.current_price|)).sum := by
  simpa using foldl_add_map (fun p => |p.size * p.current_price|) l 0

theorem sumValue_eq (l : List Position) :
    sumValue l = (l.map (fun p => p.size * p.current_price)).sum := by
  simpa using foldl_add_map (fun p => p.size * p.current_price) l 0

theorem stressLoss_zero (p : Position) : stressLoss 0 p = 0 := by
  unfold stressLoss; ring

/-- Claim C8: the stress-test computation of `perform_stress_test`, invoked
with `shock_percentage = 0`, yields `total_stress_loss = 0` for every user and
every snapshot of positions. -/
theorem c8_stress_zero_shock (ps : List Position) (uid : String) :
    totalStressLoss ps uid 0 = 0 := by
  unfold totalStressLoss
  have key : ∀ (l : List Position) (c : ℚ),
      l.foldl (fun acc p => acc + stressLoss 0 p) c = c := by
    intro l
    induction l with
    | nil => intro c; rfl
    | cons x xs ih => intro c; simp [stressLoss_zero, ih]
  exact key _ 0

/-- Claim C4 (code behaviour at the failing input): `get_risk_assessment`
serves a cached entry that is 86410 seconds old (one day plus ten seconds),
because `(utcnow() - timestamp).seconds` is the seconds component of the
timedelta, `86410 % 86400 = 10 < 300`, although the entry's true age is far
beyond the 300-second TTL. -/
theorem c4_cache_serves_stale_entry :
    getAssessmentServedFromCache (some 0) 86410 = true ∧ 300 ≤ 86410 - 0 := by
  exact ⟨by decide, by decide⟩

theorem positionRiskScore_bounds (p : Position) (h : 1 ≤ p.leverage) :
    0 ≤ positionRiskScore p ∧ positionRiskScore p ≤ 100 := by
  unfold positionRiskScore
  refine ⟨le_min ?_ (by norm_num), min_le_right _ _⟩
  split
  · have h1 : (0:ℚ) ≤ (p.leverage - 1) * 10 :=
      mul_nonneg (by linarith) (by norm_num)
    have h2 : (0:ℚ) ≤ (if |p.size * p.current_price| > 10000 then (20:ℚ) else 0) := by
      split <;> norm_num
    have h3 : (0:ℚ) ≤ |p.unrealized_pnl / |p.size * p.current_price| * 100| :=
      abs_nonneg _
    linarith
  · exact le_refl 0

/-- Claim C2: for every snapshot whose positions satisfy the `Position` field
constraint `leverage ≥ 1`, the portfolio risk score of
`calculate_portfolio_risk_metrics` and the per-position risk scores of
`calculate_position_risks` all lie in `[0, 100]`. -/
theorem c2_risk_scores_bounded (ps : List Position) (uid : String)
    (hlev : ∀ p ∈ ps, 1 ≤ p.leverage) :
    (0 ≤ (calculate_portfolio_risk_metrics ps uid).risk_score ∧
     (calculate_portfolio_risk_metrics ps uid).risk_score ≤ 100) ∧
    ∀ r ∈ calculate_position_risks ps uid,
      0 ≤ r.risk_score ∧ r.risk_score ≤ 100 := by
  constructor
  · unfold calculate_portfolio_risk_metrics
    by_cases h : userScoredPositions ps uid = []
    · simp [h, neutralPortfolioRisk]
      norm_num
    · simp only [h, if_false]
      exact ⟨le_max_left 0 _, max_le (by norm_num) (min_le_right _ 100)⟩
  · intro r hr
    unfold calculate_position_risks at hr
    simp only [List.mem_map] at hr
    obtain ⟨p, hp, rfl⟩ := hr
    have hp' : p ∈ ps := by
      unfold userScoredPositions at hp
      exact (List.mem_filter.mp hp).1
    simpa using positionRiskScore_bounds p (hlev p hp')

/-- The spec's worked example position: one long BTCUSDT position of size 1,
entry 45000, current price 46000, leverage 1, nonzero P&L. -/
def examplePosition : Position :=
  { user_id := "u1", symbol := "BTCUSDT", side := PositionSide.long
    size := 1, entry_price := 45000, current_price := 46000
    margin_used := 100, unrealized_pnl := 1000, leverage := 1 }

/-- Witness for C2 at the spec's worked example. -/
theorem c2_witness_bounds :
    0 ≤ (calculate_portfolio_risk_metrics [examplePosition] "u1").risk_score ∧
    (calculate_portfolio_risk_metrics [examplePosition] "u1").risk_score ≤ 100 :=
  (c2_risk_scores_bounded [examplePosition] "u1" (by
    intro p hp
    rw [List.mem_singleton] at hp
    subst hp
    norm_num [examplePosition])).1

/-- A position whose unrealized P&L is exactly zero. -/
def zeroPnlPosition : Position :=
  { user_id := "u1", symbol := "EURUSD", side := PositionSide.long
    size := 1, entry_price := 100, current_price := 100
    margin_used := 0, unrealized_pnl := 0, leverage := 1 }

/-- The aggregate the claim describes: `Σ|size_i * current_price_i|` over
every open position of the user, with no P&L filter (stated from the claim's
words, for comparison with the code's aggregate). -/
def claimedTotalExposureAllPositions (ps : List Position) (uid : String) : ℚ :=
  ((ps.filter (fun p => decide (p.user_id = uid))).map
    (fun p => |p.size * p.current_price|)).sum

/-- Counterexample to claim C5: a single open position with zero unrealized
P&L is excluded by `calculate_portfolio_risk_metrics`, so the code reports
`total_exposure = 0` while the claimed sum over every open position is 100. -/
theorem c5_counterexample :
    (calculate_portfolio_risk_metrics [zeroPnlPosition] "u1").total_exposure = 0 ∧
    claimedTotalExposureAllPositions [zeroPnlPosition] "u1" = 100 ∧
    (0 : ℚ) ≠ 100 := by
  refine ⟨?_, ?_, by norm_num⟩
  · have h : userScoredPositions [zeroPnlPosition] "u1" = [] := by
      simp [userScoredPositions, zeroPnlPosition]
    simp [calculate_portfolio_risk_metrics, h, neutralPortfolioRisk]
  · simp [claimedTotalExposureAllPositions, zeroPnlPosition]

/-- Claim C5 (amended): the Risk Metric Calculator aggregates over the user's
open positions **with nonzero unrealized P&L**: `total_exposure` is
`Σ|size_i * current_price_i|` and `total_portfolio_value` is
`Σ(size_i * current_price_i)` over that filtered list, and the empty position
list is a valid input (yielding the neutral snapshot, risk score 50). -/
theorem c5_exposure_sums (ps : List Position) (uid : String) :
    (calculate_portfolio_risk_metrics ps uid).total_exposure
      = ((userScoredPositions ps uid).map (fun p => |p.size * p.current_price|)).sum ∧
    (calculate_portfolio_risk_metrics ps uid).total_portfolio_value
      = ((userScoredPositions ps uid).map (fun p => p.size * p.current_price)).sum ∧
    (calculate_portfolio_risk_metrics [] uid).risk_score = 50 := by
  refine ⟨?_, ?_, ?_⟩
  · unfold calculate_portfolio_risk_metrics
    by_cases h : userScoredPositions ps uid = []
    · simp [h, neutralPortfolioRisk]
    · simp only [h, if_false]
      exact sumAbsValue_eq _
  · unfold calculate_portfolio_risk_metrics
    by_cases h : userScoredPositions ps uid = []
    · simp [h, neutralPortfolioRisk]
    · simp only [h, if_false]
      exact sumValue_eq _
  · have h : userScoredPositions [] uid = [] := rfl
    simp [calculate_portfolio_risk_metrics, h, neutralPortfolioRisk]

/-- The raw concentration term of step 4 of the calculator:
`max_symbol_exposure / total_exposure * 100` (guarded as in line 134). -/
def rawConcentrationTerm (ps : List Position) (uid : String) : ℚ :=
  let ups := userScoredPositions ps uid
  if sumAbsValue ups > 0 then maxSymbolExposure ups / sumAbsValue ups * 100
  else 0

/-- Counterexample to claim C3: on a single-position portfolio the raw
concentration term is 100 and the code stores it unscaled in
`concentration_risk`, which therefore differs from the claimed value
`raw * 0.6 = 60`. -/
theorem c3_counterexample :
    (calculate_portfolio_risk_metrics [examplePosition] "u1").concentration_risk = 100 ∧
    rawConcentrationTerm [examplePosition] "u1" * (6/10) = 60 ∧
    (100 : ℚ) ≠ 60 := by
  have hups : userScoredPositions [examplePosition] "u1" = [examplePosition] := by
    simp [userScoredPositions, examplePosition]
  have habs : sumAbsValue [examplePosition] = 46000 := by
    simp [sumAbsValue, examplePosition]
  have hmax : maxSymbolExposure [examplePosition] = 46000 := by
    simp [maxSymbolExposure, distinctSymbols, symbolExposure, examplePosition,
      sumAbsValue, List.filter]
  refine ⟨?_, ?_, by norm_num⟩
  · unfold calculate_portfolio_risk_metrics
    rw [hups]
    simp only [if_neg (by simp : ¬([examplePosition] = ([] : List Position)))]
    simp [habs, hmax]
  · unfold rawConcentrationTerm
    rw [hups]
    simp [habs, hmax]
    norm_num

/-- Claim C3 (amended): for every portfolio with at least one scored position,
the returned `concentration_risk` equals the raw concentration term itself
(`max_symbol_exposure / total_exposure * 100`); the product `raw * 0.6` is
stored in the `correlation_risk` field instead. -/
theorem c3_concentration_is_raw (ps : List Position) (uid : String)
    (h : userScoredPositions ps uid ≠ []) :
    (calculate_portfolio_risk_metrics ps uid).concentration_risk
      = rawConcentrationTerm ps uid ∧
    (calculate_portfolio_risk_metrics ps uid).correlation_risk
      = rawConcentrationTerm ps uid * (6/10) := by
  unfold calculate_portfolio_risk_metrics rawConcentrationTerm
  simp [if_neg h]

/-- Witness for C3 (amended) at the worked-example portfolio. -/
theorem c3_witness :
    (calculate_portfolio_risk_metrics [examplePosition] "u1").concentration_risk
      = rawConcentrationTerm [examplePosition] "u1" ∧
    (calculate_portfolio_risk_metrics [examplePosition] "u1").correlation_risk
      = rawConcentrationTerm [examplePosition] "u1" * (6/10) :=
  c3_concentration_is_raw [examplePosition] "u1" (by
    simp [userScoredPositions, examplePosition])

theorem mem_userScoredPositions {p : Position} {ps : List Position}
    {uid : String} (h : p ∈ userScoredPositions ps uid) : p ∈ ps := by
  unfold userScoredPositions at h
  exact (List.mem_filter.mp h).1

theorem cprm_total_exposure_eq (ps : List Position) (uid : String)
    (h : userScoredPositions ps uid ≠ []) :
    (calculate_portfolio_risk_metrics ps uid).total_exposure
      = sumAbsValue (userScoredPositions ps uid) := by
  unfold calculate_portfolio_risk_metrics
  simp [if_neg h]

theorem cprm_total_value_eq (ps : List Position) (uid : String)
    (h : userScoredPositions ps uid ≠ []) :
    (calculate_portfolio_risk_metrics ps uid).total_portfolio_value
      = sumValue (userScoredPositions ps uid) := by
  unfold calculate_portfolio_risk_metrics
  simp [if_neg h]

theorem cprm_exposure_percentage_eq (ps : List Position) (uid : String)
    (h : userScoredPositions ps uid ≠ []) :
    (calculate_portfolio_risk_metrics ps uid).exposure_percentage
      = (if sumValue (userScoredPositions ps uid) > 0 then
           sumAbsValue (userScoredPositions ps uid)
             / |sumValue (userScoredPositions ps uid)| * 100
         else 0) := by
  unfold calculate_portfolio_risk_metrics
  simp [if_neg h]

theorem sums_eq_of_pos (l : List Position)
    (h : ∀ p ∈ l, 0 < p.size ∧ 0 < p.current_price) :
    sumAbsValue l = sumValue l := by
  rw [sumAbsValue_eq, sumValue_eq]
  have hmap : l.map (fun p => |p.size * p.current_price|)
      = l.map (fun p => p.size * p.current_price) := by
    apply List.map_congr_left
    intro p hp
    exact abs_of_pos (mul_pos (h p hp).1 (h p hp).2)
  rw [hmap]

theorem sumValue_pos (l : List Position) (hne : l ≠ [])
    (h : ∀ p ∈ l, 0 < p.size ∧ 0 < p.current_price) : 0 < sumValue l := by
  rw [sumValue_eq]
  apply List.sum_pos
  · intro v hv
    obtain ⟨p, hp, rfl⟩ := List.mem_map.mp hv
    exact mul_pos (h p hp).1 (h p hp).2
  · simpa using hne

theorem recPositionCritical_ne (sym : String) :
    recPositionCritical sym ≠ recExposureHigh := by
  intro h
  have h2 : (recPositionCritical sym).data.head? = recExposureHigh.data.head? := by
    rw [h]
  have h3 : (recPositionCritical sym).data.head? = some 'P' := rfl
  have h4 : recExposureHigh.data.head? = some 'Y' := rfl
  rw [h3, h4] at h2
  exact absurd h2 (by decide)

theorem recHighLeverage_ne (sym : String) :
    recHighLeverage sym ≠ recExposureHigh := by
  intro h
  have h2 : (recHighLeverage sym).data.head? = recExposureHigh.data.head? := by
    rw [h]
  have h3 : (recHighLeverage sym).data.head? = some 'H' := rfl
  have h4 : recExposureHigh.data.head? = some 'Y' := rfl
  rw [h3, h4] at h2
  exact absurd h2 (by decide)

theorem recExposureHigh_not_mem (pr : PortfolioRisk) (prs : List RiskExposure)
    (hep : ¬ pr.exposure_percentage > 200) :
    recExposureHigh ∉ generate_risk_recommendations pr prs := by
  unfold generate_risk_recommendations
  intro hmem
  split at hmem
  · exact absurd (List.mem_singleton.mp hmem) (by decide)
  · unfold accumulatedRecommendations at hmem
    simp only [List.mem_append, List.mem_flatMap] at hmem
    rcases hmem with ((h1 | h2) | h3) | h4
    · split_ifs at h1
      · exact absurd (List.mem_singleton.mp h1) (by decide)
      · exact absurd (List.mem_singleton.mp h1) (by decide)
      · exact absurd h1 (List.not_mem_nil _)
    · split_ifs at h2
      · exact absurd (List.mem_singleton.mp h2) (by decide)
      · exact absurd h2 (List.not_mem_nil _)
    · rw [if_neg hep] at h3
      exact absurd h3 (List.not_mem_nil _)
    · obtain ⟨r, _, hmem2⟩ := h4
      split_ifs at hmem2
      · exact recPositionCritical_ne _ (List.mem_singleton.mp hmem2).symm
      · exact recHighLeverage_ne _ (List.mem_singleton.mp hmem2).symm
      · exact absurd hmem2 (List.not_mem_nil _)

/-- Claim C9: when every position satisfies the schema constraints
`size > 0` and `current_price > 0`, a portfolio with at least one scored
position has `total_exposure = total_portfolio_value` and
`exposure_percentage = 100` exactly, and the "exposure ratio is very high"
recommendation (which requires `exposure_percentage > 200`) is never emitted
for any input. -/
theorem c9_exposure_always_100 (ps : List Position) (uid : String)
    (hpos : ∀ p ∈ ps, 0 < p.size ∧ 0 < p.current_price) :
    (userScoredPositions ps uid ≠ [] →
      (calculate_portfolio_risk_metrics ps uid).total_exposure
        = (calculate_portfolio_risk_metrics ps uid).total_portfolio_value ∧
      (calculate_portfolio_risk_metrics ps uid).exposure_percentage = 100) ∧
    recExposureHigh ∉ generate_risk_recommendations
      (calculate_portfolio_risk_metrics ps uid)
      (calculate_position_risks ps uid) := by
  have hsub : ∀ p ∈ userScoredPositions ps uid,
      0 < p.size ∧ 0 < p.current_price :=
    fun p hp => hpos p (mem_userScoredPositions hp)
  have hmain : userScoredPositions ps uid ≠ [] →
      (calculate_portfolio_risk_metrics ps uid).total_exposure
        = (calculate_portfolio_risk_metrics ps uid).total_portfolio_value ∧
      (calculate_portfolio_risk_metrics ps uid).exposure_percentage = 100 := by
    intro hne
    have hte : sumAbsValue (userScoredPositions ps uid)
        = sumValue (userScoredPositions ps uid) := sums_eq_of_pos _ hsub
    have htpv : 0 < sumValue (userScoredPositions ps uid) :=
      sumValue_pos _ hne hsub
    constructor
    · rw [cprm_total_exposure_eq ps uid hne, cprm_total_value_eq ps uid hne, hte]
    · rw [cprm_exposure_percentage_eq ps uid hne, if_pos htpv, hte,
        abs_of_pos htpv, div_self (ne_of_gt htpv), one_mul]
  refine ⟨hmain, ?_⟩
  apply recExposureHigh_not_mem
  by_cases hne : userScoredPositions ps uid = []
  · have : (calculate_portfolio_risk_metrics ps uid).exposure_percentage = 0 := by
      unfold calculate_portfolio_risk_metrics
      simp [hne, neutralPortfolioRisk]
    rw [this]
    norm_num
  · rw [(hmain hne).2]
    norm_num

/-- Witness for C9 at the worked-example portfolio. -/
theorem c9_witness :
    (calculate_portfolio_risk_metrics [examplePosition] "u1").exposure_percentage = 100 ∧
    recExposureHigh ∉ generate_risk_recommendations
      (calculate_portfolio_risk_metrics [examplePosition] "u1")
      (calculate_position_risks [examplePosition] "u1") := by
  have h := c9_exposure_always_100 [examplePosition] "u1" (by
    intro p hp
    rw [List.mem_singleton] at hp
    subst hp
    constructor <;> norm_num [examplePosition])
  refine ⟨(h.1 (by simp [userScoredPositions, examplePosition])).2, h.2⟩

theorem breachCurrentValue_daily_volume (ps : List Position) (uid : String)
    (l : RiskLimit) (htype : l.limit_type = LimitType.daily_volume) :
    breachCurrentValue ps uid l = 0 := by
  unfold breachCurrentValue
  rw [htype]

theorem breachUpdate_daily_volume (ps : List Position) (uid : String)
    (l : RiskLimit) (htype : l.limit_type = LimitType.daily_volume)
    (hlv : 0 < l.limit_value) :
    breachUpdate ps uid l = l := by
  unfold breachUpdate
  rw [breachCurrentValue_daily_volume ps uid l htype]
  have hngt : ¬ ((0:ℚ) > l.limit_value) := by linarith
  simp [hngt]

/-- Claim C10: a `daily_volume` risk limit (which always has
`limit_value > 0`, enforced at creation and update) is never transitioned to
`breached` by a breach check — the check computes no current value for this
type — and its `current_value` stays 0 through every breach check and every
`get_risk_limits` call. -/
theorem c10_daily_volume_inert (ps : List Position) (uid : String)
    (l : RiskLimit) (htype : l.limit_type = LimitType.daily_volume)
    (hlv : 0 < l.limit_value) (hcv : l.current_value = 0) :
    breachUpdate ps uid l = l ∧
    (limitStep ps uid none none l).current_value = 0 ∧
    (limitStep ps uid none none l).status = l.status := by
  refine ⟨breachUpdate_daily_volume ps uid l htype hlv, ?_⟩
  unfold limitStep
  by_cases hm : matchesFilters uid none none l = true
  · rw [if_pos hm]
    have hr : refreshLimit ps uid l = { l with current_value := 0 } := by
      unfold refreshLimit
      rw [htype]
    rw [hr]
    have hb := breachUpdate_daily_volume ps uid { l with current_value := 0 }
      (by simpa using htype) (by simpa using hlv)
    rw [hb]
    exact ⟨rfl, rfl⟩
  · rw [if_neg hm]
    rw [breachUpdate_daily_volume ps uid l htype hlv]
    exact ⟨hcv, rfl⟩

/-- A daily-volume limit used as concrete input. -/
def dailyVolumeLimit : RiskLimit :=
  { id := "L10", user_id := "u1", symbol := "BTCUSDT"
    limit_type := LimitType.daily_volume, limit_value := 5
    current_value := 0, status := LimitStatus.active, auto_close := false }

/-- Witness for C10 on a concrete store and snapshot. -/
theorem c10_witness :
    breachUpdate [examplePosition] "u1" dailyVolumeLimit = dailyVolumeLimit ∧
    (limitStep [examplePosition] "u1" none none dailyVolumeLimit).current_value = 0 :=
  have h := c10_daily_volume_inert [examplePosition] "u1" dailyVolumeLimit rfl
    (by norm_num [dailyVolumeLimit]) rfl
  ⟨h.1, h.2.1⟩

theorem limitType_mem_valid (t : LimitType) : t ∈ VALID_LIMIT_TYPES := by
  cases t <;> simp [VALID_LIMIT_TYPES]

/-- An active exposure limit already present in the store. -/
def existingExposureLimit : RiskLimit :=
  { id := "a1b2c3", user_id := "u1", symbol := "BTCUSDT"
    limit_type := LimitType.exposure, limit_value := 50000
    current_value := 0, status := LimitStatus.active, auto_close := false }

/-- A creation request for the same (user, symbol, limit_type) triple. -/
def duplicateExposureRequest : CreateRiskLimitRequest :=
  { symbol := "BTCUSDT", limit_type := LimitType.exposure
    limit_value := 60000, auto_close := false }

theorem createLimit_duplicate_conflict (s : List RiskLimit) (uid : String)
    (req : CreateRiskLimitRequest) (newId : String) (l : RiskLimit)
    (hmem : l ∈ s) (huser : l.user_id = uid) (hsym : l.symbol = req.symbol)
    (htype : l.limit_type = req.limit_type)
    (hstatus : l.status = LimitStatus.active) (hlv : 0 < req.limit_value) :
    create_risk_limit s uid req newId = (s, Except.error conflictPayload) := by
  unfold create_risk_limit
  rw [if_neg (by linarith : ¬ req.limit_value ≤ 0)]
  rw [if_neg (not_not_intro (limitType_mem_valid req.limit_type))]
  cases hfind : s.find? (fun l => decide (l.user_id = uid ∧ l.symbol = req.symbol ∧
      l.limit_type = req.limit_type ∧ l.status = LimitStatus.active)) with
  | none =>
    exfalso
    have hnone := List.find?_eq_none.mp hfind l hmem
    simp [huser, hsym, htype, hstatus] at hnone
  | some lfound => rfl

/-- Claim C7 (amended): whenever CreateLimit is rejected because an active
limit exists for the same (user_id, symbol, limit_type), the error returned
is the constant `LIMIT_EXISTS` payload — a fixed code and message that do not
include the existing limit's id — and the store is unchanged. -/
theorem c7_conflict_payload_constant (s : List RiskLimit) (uid : String)
    (req : CreateRiskLimitRequest) (newId : String) (l : RiskLimit)
    (hmem : l ∈ s) (huser : l.user_id = uid) (hsym : l.symbol = req.symbol)
    (htype : l.limit_type = req.limit_type)
    (hstatus : l.status = LimitStatus.active) (hlv : 0 < req.limit_value) :
    create_risk_limit s uid req newId = (s, Except.error conflictPayload) :=
  createLimit_duplicate_conflict s uid req newId l hmem huser hsym htype
    hstatus hlv

/-- Counterexample to claim C7: the duplicate-creation error is the fixed
`LIMIT_EXISTS` payload; the existing limit's id `"a1b2c3"` occurs in neither
its code nor its message. -/
theorem c7_counterexample :
    (create_risk_limit [existingExposureLimit] "u1" duplicateExposureRequest
      "newid").2 = Except.error conflictPayload ∧
    ¬ ("a1b2c3".data <:+: conflictPayload.code.data) ∧
    ¬ ("a1b2c3".data <:+: conflictPayload.message.data) := by
  refine ⟨?_, by decide, by decide⟩
  unfold create_risk_limit
  norm_num [existingExposureLimit, duplicateExposureRequest, VALID_LIMIT_TYPES,
    List.find?]

/-- Witness for C7 (amended) on a concrete store. -/
theorem c7_witness :
    create_risk_limit [existingExposureLimit] "u1" duplicateExposureRequest
      "newid2" = ([existingExposureLimit], Except.error conflictPayload) :=
  c7_conflict_payload_constant [existingExposureLimit] "u1"
    duplicateExposureRequest "newid2" existingExposureLimit
    (List.mem_singleton.mpr rfl) rfl rfl rfl rfl
    (by norm_num [duplicateExposureRequest])

/-- The three limit types whose `current_value` the `get_risk_limits` refresh
loop recomputes. -/
def refreshedType (t : LimitType) : Prop :=
  t = LimitType.position_size ∨ t = LimitType.exposure ∨ t = LimitType.leverage

theorem refreshLimit_fields (ps : List Position) (uid : String) (l : RiskLimit) :
    (refreshLimit ps uid l).id = l.id ∧
    (refreshLimit ps uid l).user_id = l.user_id ∧
    (refreshLimit ps uid l).symbol = l.symbol ∧
    (refreshLimit ps uid l).limit_type = l.limit_type ∧
    (refreshLimit ps uid l).limit_value = l.limit_value ∧
    (refreshLimit ps uid l).status = l.status := by
  rcases l with ⟨lid, lu, lsy, lt, lv, cv, st, ac⟩
  cases lt <;> simp [refreshLimit]

theorem breachCurrentValue_congr (ps : List Position) (uid : String)
    (l l' : RiskLimit) (htype : l'.limit_type = l.limit_type)
    (hsym : l'.symbol = l.symbol) :
    breachCurrentValue ps uid l' = breachCurrentValue ps uid l := by
  unfold breachCurrentValue
  rw [htype, hsym]

theorem matchesFilters_none_none (uid : String) (l : RiskLimit) :
    matchesFilters uid none none l = decide (l.user_id = uid) := by
  unfold matchesFilters
  simp

theorem refreshLimit_cv (ps : List Position) (uid : String) (l : RiskLimit)
    (ht : refreshedType l.limit_type) :
    (refreshLimit ps uid l).current_value = breachCurrentValue ps uid l := by
  rcases l with ⟨lid, lu, lsy, lt, lv, cv, st, ac⟩
  rcases ht with h | h | h <;> simp only at h <;> subst h <;> rfl

theorem breachUpdate_fields (ps : List Position) (uid : String) (l : RiskLimit) :
    (breachUpdate ps uid l).user_id = l.user_id ∧
    (breachUpdate ps uid l).symbol = l.symbol ∧
    (breachUpdate ps uid l).limit_type = l.limit_type ∧
    (breachUpdate ps uid l).limit_value = l.limit_value := by
  unfold breachUpdate
  split_ifs <;> simp

theorem breachUpdate_cv (ps : List Position) (uid : String) (l : RiskLimit) :
    (breachUpdate ps uid l).current_value = l.current_value ∨
    (breachUpdate ps uid l).current_value = breachCurrentValue ps uid l := by
  unfold breachUpdate
  split_ifs <;> simp

theorem limitStep_cv_of_user (ps : List Position) (uid : String) (l : RiskLimit)
    (hu : l.user_id = uid) (ht : refreshedType l.limit_type) :
    (limitStep ps uid none none l).current_value = breachCurrentValue ps uid l := by
  unfold limitStep
  rw [matchesFilters_none_none, if_pos (by simpa using hu)]
  have hcongr : breachCurrentValue ps uid (refreshLimit ps uid l)
      = breachCurrentValue ps uid l :=
    breachCurrentValue_congr ps uid l _ (refreshLimit_fields ps uid l).2.2.2.1
      (refreshLimit_fields ps uid l).2.2.1
  rcases breachUpdate_cv ps uid (refreshLimit ps uid l) with h | h
  · rw [h, refreshLimit_cv ps uid l ht]
  · rw [h, hcongr]

theorem limitStep_not_user (ps : List Position) (uid : String) (l : RiskLimit)
    (hu : ¬ l.user_id = uid) : limitStep ps uid none none l = l := by
  unfold limitStep
  rw [matchesFilters_none_none, if_neg (by simpa using hu)]
  unfold breachUpdate
  simp [hu]

theorem limitStep_fields (ps : List Position) (uid : String)
    (ft : Option LimitType) (fs : Option String) (l : RiskLimit) :
    (limitStep ps uid ft fs l).user_id = l.user_id ∧
    (limitStep ps uid ft fs l).symbol = l.symbol ∧
    (limitStep ps uid ft fs l).limit_type = l.limit_type := by
  unfold limitStep
  split
  · refine ⟨?_, ?_, ?_⟩
    · rw [(breachUpdate_fields ps uid _).1, (refreshLimit_fields ps uid l).2.1]
    · rw [(breachUpdate_fields ps uid _).2.1, (refreshLimit_fields ps uid l).2.2.1]
    · rw [(breachUpdate_fields ps uid _).2.2.1,
        (refreshLimit_fields ps uid l).2.2.2.1]
  · exact ⟨(breachUpdate_fields ps uid l).1, (breachUpdate_fields ps uid l).2.1,
      (breachUpdate_fields ps uid l).2.2.1⟩

theorem limitStep_cv_idem (ps : List Position) (uid : String) (l : RiskLimit)
    (ht : refreshedType l.limit_type) :
    (limitStep ps uid none none (limitStep ps uid none none l)).current_value
      = (limitStep ps uid none none l).current_value := by
  by_cases hu : l.user_id = uid
  · have hfields := limitStep_fields ps uid none none l
    have hu2 : (limitStep ps uid none none l).user_id = uid := by
      rw [hfields.1, hu]
    have ht2 : refreshedType (limitStep ps uid none none l).limit_type := by
      rw [hfields.2.2]; exact ht
    rw [limitStep_cv_of_user ps uid _ hu2 ht2, limitStep_cv_of_user ps uid l hu ht]
    exact breachCurrentValue_congr ps uid l _ hfields.2.2 hfields.2.1
  · rw [limitStep_not_user ps uid l hu, limitStep_not_user ps uid l hu]

theorem limitStep_breach_shows (ps : List Position) (uid : String)
    (l : RiskLimit) (hu : l.user_id = uid)
    (hst : l.status = LimitStatus.active)
    (hbr : breachCurrentValue ps uid l > l.limit_value) :
    (limitStep ps uid none none l).status = LimitStatus.breached ∧
    (limitStep ps uid none none l).current_value
      = breachCurrentValue ps uid l := by
  unfold limitStep
  rw [matchesFilters_none_none, if_pos (by simpa using hu)]
  have hfr := refreshLimit_fields ps uid l
  have hru : (refreshLimit ps uid l).user_id = uid := by rw [hfr.2.1]; exact hu
  have hrst : (refreshLimit ps uid l).status = LimitStatus.active := by
    rw [hfr.2.2.2.2.2]; exact hst
  have hrbcv : breachCurrentValue ps uid (refreshLimit ps uid l)
      = breachCurrentValue ps uid l :=
    breachCurrentValue_congr ps uid l _ hfr.2.2.2.1 hfr.2.2.1
  unfold breachUpdate
  rw [if_pos ⟨hru, hrst⟩, if_pos (by rw [hrbcv, hfr.2.2.2.2.1]; exact hbr)]
  exact ⟨rfl, hrbcv⟩

/-- Claim C6 (amended): with no intervening change to positions or limits,
a second `get_risk_limits` pass yields the same `current_value` on every
limit whose type the refresh loop recomputes (`position_size`, `exposure`,
`leverage`), and after a breach-triggering snapshot every active limit whose
freshly computed value exceeds its threshold is shown with status `breached`
and `current_value` equal to that fresh value (this breach-display part holds
for `daily_loss` as well). The re-check is NOT idempotent for a breached
`daily_loss` limit, whose `current_value` the next call resets to 0 — see the
counterexample. -/
theorem c6_list_limits_recheck (ps : List Position) (uid : String)
    (s : List RiskLimit) (i : ℕ) (hi : i < s.length)
    (h1 : i < (get_risk_limits_store ps uid none none s).length)
    (h2 : i < (get_risk_limits_store ps uid none none
        (get_risk_limits_store ps uid none none s)).length) :
    (refreshedType (s.get ⟨i, hi⟩).limit_type →
      ((get_risk_limits_store ps uid none none
          (get_risk_limits_store ps uid none none s)).get ⟨i, h2⟩).current_value
        = ((get_risk_limits_store ps uid none none s).get ⟨i, h1⟩).current_value) ∧
    ((s.get ⟨i, hi⟩).user_id = uid →
      (s.get ⟨i, hi⟩).status = LimitStatus.active →
      breachCurrentValue ps uid (s.get ⟨i, hi⟩) > (s.get ⟨i, hi⟩).limit_value →
      ((get_risk_limits_store ps uid none none s).get ⟨i, h1⟩).status
          = LimitStatus.breached ∧
      ((get_risk_limits_store ps uid none none s).get ⟨i, h1⟩).current_value
        = breachCurrentValue ps uid (s.get ⟨i, hi⟩)) := by
  have hA : (get_risk_limits_store ps uid none none s).get ⟨i, h1⟩
      = limitStep ps uid none none (s.get ⟨i, hi⟩) := by
    unfold get_risk_limits_store
    simp
  have hB : (get_risk_limits_store ps uid none none
      (get_risk_limits_store ps uid none none s)).get ⟨i, h2⟩
      = limitStep ps uid none none
          (limitStep ps uid none none (s.get ⟨i, hi⟩)) := by
    unfold get_risk_limits_store
    simp
  rw [hA, hB]
  exact ⟨fun ht => limitStep_cv_idem ps uid _ ht,
         fun hu hst hbr => limitStep_breach_shows ps uid _ hu hst hbr⟩

/-- An active daily-loss limit with threshold 10. -/
def dailyLossLimit : RiskLimit :=
  { id := "L6", user_id := "u1", symbol := "BTCUSDT"
    limit_type := LimitType.daily_loss, limit_value := 10
    current_value := 0, status := LimitStatus.active, auto_close := false }

/-- A position carrying 20 units of unrealized P&L. -/
def losingPosition : Position :=
  { user_id := "u1", symbol := "BTCUSDT", side := PositionSide.long
    size := 1, entry_price := 100, current_price := 120
    margin_used := 0, unrealized_pnl := 20, leverage := 1 }

/-- Counterexample to claim C6: a breached `daily_loss` limit is shown with
`current_value = 20` by the first `get_risk_limits` pass, but the very next
pass — with no intervening change to positions or limits — resets its
`current_value` to 0 (the refresh loop has no `daily_loss` branch and the
breach check skips non-active limits), so the re-check is not idempotent. -/
theorem c6_counterexample :
    get_risk_limits_store [losingPosition] "u1" none none [dailyLossLimit]
      = [{ dailyLossLimit with current_value := 20, status := LimitStatus.breached }] ∧
    get_risk_limits_store [losingPosition] "u1" none none
        [{ dailyLossLimit with current_value := 20, status := LimitStatus.breached }]
      = [{ dailyLossLimit with current_value := 0, status := LimitStatus.breached }] ∧
    (20 : ℚ) ≠ 0 := by
  refine ⟨?_, ?_, by norm_num⟩
  · norm_num [get_risk_limits_store, limitStep, matchesFilters, refreshLimit,
      breachUpdate, breachCurrentValue, sumAbsPnl, dailyLossLimit,
      losingPosition, List.filter]
  · norm_num [get_risk_limits_store, limitStep, matchesFilters, refreshLimit,
      breachUpdate, breachCurrentValue, sumAbsPnl, dailyLossLimit,
      losingPosition, List.filter]
    decide

/-- An active exposure limit with threshold 10, used as witness input. -/
def exposureLimitW : RiskLimit :=
  { id := "L6w", user_id := "u1", symbol := "BTCUSDT"
    limit_type := LimitType.exposure, limit_value := 10
    current_value := 0, status := LimitStatus.active, auto_close := false }

/-- Witness for C6 (amended) on a concrete store and snapshot: the exposure
limit's current value is stable under a second pass, and the first pass shows
it breached. -/
theorem c6_witness :
    ((get_risk_limits_store [losingPosition] "u1" none none
        (get_risk_limits_store [losingPosition] "u1" none none
          [exposureLimitW])).get
      ⟨0, by simp [get_risk_limits_store]⟩).current_value
      = ((get_risk_limits_store [losingPosition] "u1" none none
          [exposureLimitW]).get
        ⟨0, by simp [get_risk_limits_store]⟩).current_value ∧
    ((get_risk_limits_store [losingPosition] "u1" none none
        [exposureLimitW]).get
      ⟨0, by simp [get_risk_limits_store]⟩).status = LimitStatus.breached := by
  have h := c6_list_limits_recheck [losingPosition] "u1" [exposureLimitW] 0
    (by simp) (by simp [get_risk_limits_store]) (by simp [get_risk_limits_store])
  refine ⟨h.1 ?_, (h.2 rfl rfl ?_).1⟩
  · exact Or.inr (Or.inl rfl)
  · norm_num [breachCurrentValue, sumAbsValue, exposureLimitW, losingPosition,
      List.filter]

/-- A per-limit modification that never turns a non-active limit active and
never changes the `(user_id, symbol, limit_type)` triple. -/
def activePreserving (f : RiskLimit → RiskLimit) : Prop :=
  ∀ l, ((f l).status = LimitStatus.active → l.status = LimitStatus.active) ∧
    (f l).user_id = l.user_id ∧ (f l).symbol = l.symbol ∧
    (f l).limit_type = l.limit_type

theorem not_dupActive_left {f : RiskLimit → RiskLimit}
    (hf : activePreserving f) {a b : RiskLimit} (h : ¬ dupActive a b) :
    ¬ dupActive (f a) b := by
  rintro ⟨h1, h2, h3, h4, h5⟩
  exact h ⟨(hf a).1 h1, h2, (hf a).2.1 ▸ h3, (hf a).2.2.1 ▸ h4,
    (hf a).2.2.2 ▸ h5⟩

theorem not_dupActive_right {f : RiskLimit → RiskLimit}
    (hf : activePreserving f) {a b : RiskLimit} (h : ¬ dupActive a b) :
    ¬ dupActive a (f b) := by
  rintro ⟨h1, h2, h3, h4, h5⟩
  exact h ⟨h1, (hf b).1 h2, ((hf b).2.1 ▸ h3 : a.user_id = b.user_id),
    ((hf b).2.2.1 ▸ h4 : a.symbol = b.symbol),
    ((hf b).2.2.2 ▸ h5 : a.limit_type = b.limit_type)⟩

theorem mem_modifyFirst {p : α → Bool} {f : α → α} {b : α} :
    ∀ {s : List α}, b ∈ modifyFirst p f s → b ∈ s ∨ ∃ a ∈ s, b = f a := by
  intro s
  induction s with
  | nil => intro h; exact absurd h (List.not_mem_nil b)
  | cons x xs ih =>
    intro h
    unfold modifyFirst at h
    split at h
    · rcases List.mem_cons.mp h with h | h
      · exact Or.inr ⟨x, List.mem_cons_self x xs, h⟩
      · exact Or.inl (List.mem_cons_of_mem x h)
    · rcases List.mem_cons.mp h with h | h
      · exact Or.inl (h ▸ List.mem_cons_self x xs)
      · rcases ih h with h2 | ⟨a, ha, rfl⟩
        · exact Or.inl (List.mem_cons_of_mem x h2)
        · exact Or.inr ⟨a, List.mem_cons_of_mem x ha, rfl⟩

theorem atMostOneActive_modifyFirst {f : RiskLimit → RiskLimit}
    {p : RiskLimit → Bool} (hf : activePreserving f) :
    ∀ {s : List RiskLimit}, atMostOneActive s →
      atMostOneActive (modifyFirst p f s) := by
  intro s h
  induction s with
  | nil => exact h
  | cons x xs ih =>
    rcases List.pairwise_cons.mp h with ⟨hx, hxs⟩
    unfold modifyFirst
    split
    · exact List.pairwise_cons.mpr
        ⟨fun b hb => not_dupActive_left hf (hx b hb), hxs⟩
    · refine List.pairwise_cons.mpr ⟨?_, ih hxs⟩
      intro b hb
      rcases mem_modifyFirst hb with hmem | ⟨a, ha, rfl⟩
      · exact hx b hmem
      · exact not_dupActive_right hf (hx a ha)

theorem atMostOneActive_map {f : RiskLimit → RiskLimit}
    (hf : activePreserving f) {s : List RiskLimit}
    (h : atMostOneActive s) : atMostOneActive (s.map f) :=
  h.map f (fun _ _ hab => not_dupActive_right hf (not_dupActive_left hf hab))

theorem breachUpdate_activePreserving (ps : List Position) (uid : String) :
    activePreserving (breachUpdate ps uid) := by
  intro l
  refine ⟨?_, (breachUpdate_fields ps uid l).1,
    (breachUpdate_fields ps uid l).2.1, (breachUpdate_fields ps uid l).2.2.1⟩
  unfold breachUpdate
  split_ifs <;> intro h <;> simp_all

theorem applyLimitUpdate_activePreserving (req : UpdateRiskLimitRequest)
    (hst : ¬ req.status = some LimitStatus.active) :
    activePreserving (applyLimitUpdate req) := by
  intro l
  unfold applyLimitUpdate
  rcases req with ⟨rid, rlv, rst, rac⟩
  simp only at hst
  cases rlv <;> cases rst <;> cases rac <;> simp_all

theorem atMostOneActive_create (s : List RiskLimit) (uid : String)
    (req : CreateRiskLimitRequest) (newId : String)
    (h : atMostOneActive s) :
    atMostOneActive (create_risk_limit s uid req newId).1 := by
  unfold create_risk_limit
  split
  · exact h
  · split
    · exact h
    · split
      · exact h
      · rename_i hfind
        dsimp only
        refine List.pairwise_append.mpr ⟨h, List.pairwise_singleton _ _, ?_⟩
        intro a ha b hb
        rw [List.mem_singleton] at hb
        subst hb
        rintro ⟨hd1, hd2, hd3, hd4, hd5⟩
        have hnone := List.find?_eq_none.mp hfind a ha
        simp only [decide_eq_true_eq] at hnone
        exact hnone ⟨hd3, hd4, hd5, hd1⟩

theorem atMostOneActive_update (s : List RiskLimit) (uid : String)
    (req : UpdateRiskLimitRequest) (h : atMostOneActive s)
    (hst : ¬ req.status = some LimitStatus.active) :
    atMostOneActive (update_risk_limit s uid req).1 := by
  unfold update_risk_limit
  split
  · exact h
  · split
    · exact h
    · split
      · exact h
      · dsimp only
        exact atMostOneActive_modifyFirst
          (applyLimitUpdate_activePreserving req hst) h

theorem atMostOneActive_delete (s : List RiskLimit) (uid : String)
    (lid : String) (h : atMostOneActive s) :
    atMostOneActive (delete_risk_limit s uid lid).1 := by
  unfold delete_risk_limit
  split
  · exact h
  · split
    · exact h
    · exact h.sublist (List.eraseP_sublist s)

/-- An operation is a "re-activating update" when it is an UpdateLimit
request whose status field is `active`. -/
def reactivatingUpdate : LimitOp → Bool
  | LimitOp.update _ req => decide (req.status = some LimitStatus.active)
  | _ => false

/-- Claim C1 (amended): CreateLimit rejects a duplicate active limit for the
same (user_id, symbol, limit_type) with the `LIMIT_EXISTS` conflict error,
and every operation other than an UpdateLimit that sets status back to
`active` preserves the at-most-one-active-limit-per-triple invariant. The
invariant does NOT hold for all reachable states: UpdateLimit applies a
status change with no uniqueness check, so re-activating a disabled limit
can produce two active limits for one triple (see the counterexample). -/
theorem c1_invariant_preservation :
    (∀ (s : List RiskLimit) (uid : String) (req : CreateRiskLimitRequest)
        (newId : String) (l : RiskLimit),
      l ∈ s → l.user_id = uid → l.symbol = req.symbol →
      l.limit_type = req.limit_type → l.status = LimitStatus.active →
      0 < req.limit_value →
      (create_risk_limit s uid req newId).2 = Except.error conflictPayload) ∧
    (∀ (s : List RiskLimit) (op : LimitOp), atMostOneActive s →
      reactivatingUpdate op = false → atMostOneActive (runOp s op).1) := by
  constructor
  · intro s uid req newId l hmem huser hsym htype hstatus hlv
    rw [createLimit_duplicate_conflict s uid req newId l hmem huser hsym
      htype hstatus hlv]
  · intro s op h hop
    cases op with
    | create uid req newId => exact atMostOneActive_create s uid req newId h
    | update uid req =>
      refine atMostOneActive_update s uid req h ?_
      unfold reactivatingUpdate at hop
      simpa using hop
    | delete uid lid => exact atMostOneActive_delete s uid lid h
    | breachCheck ps uid =>
      exact atMostOneActive_map (breachUpdate_activePreserving ps uid) h

/-- First creation request of the C1 trace. -/
def c1CreateFirst : CreateRiskLimitRequest :=
  { symbol := "BTCUSDT", limit_type := LimitType.exposure
    limit_value := 100, auto_close := false }

/-- Second creation request of the C1 trace (same triple). -/
def c1CreateSecond : CreateRiskLimitRequest :=
  { symbol := "BTCUSDT", limit_type := LimitType.exposure
    limit_value := 200, auto_close := false }

/-- Update request disabling limit L1. -/
def c1Disable : UpdateRiskLimitRequest :=
  { id := "L1", limit_value := none
    status := some LimitStatus.disabled, auto_close := none }

/-- Update request re-activating limit L1. -/
def c1Reactivate : UpdateRiskLimitRequest :=
  { id := "L1", limit_value := none
    status := some LimitStatus.active, auto_close := none }

/-- The operation trace of the C1 counterexample: create, disable, create a
second limit for the same triple, then re-activate the first. -/
def c1Trace : List LimitOp :=
  [LimitOp.create "u1" c1CreateFirst "L1",
   LimitOp.update "u1" c1Disable,
   LimitOp.create "u1" c1CreateSecond "L2",
   LimitOp.update "u1" c1Reactivate]

/-- Counterexample to claim C1: every operation of the trace succeeds, yet
the state reached from the empty store holds two `active` limits for the
triple (u1, BTCUSDT, exposure) — UpdateLimit re-activates L1 without any
uniqueness check. -/
theorem c1_counterexample :
    (runOp [] (LimitOp.create "u1" c1CreateFirst "L1")).2 = true ∧
    (runOp (runOps [] (c1Trace.take 1)) (LimitOp.update "u1" c1Disable)).2 = true ∧
    (runOp (runOps [] (c1Trace.take 2)) (LimitOp.create "u1" c1CreateSecond "L2")).2 = true ∧
    (runOp (runOps [] (c1Trace.take 3)) (LimitOp.update "u1" c1Reactivate)).2 = true ∧
    ¬ atMostOneActive (runOps [] c1Trace) := by
  refine ⟨by decide, by decide, by decide, by decide, by decide⟩

/-- Witness for C1 (amended): the duplicate-create rejection and the
preservation step, each at a concrete input. -/
theorem c1_witness :
    (create_risk_limit [existingExposureLimit] "u1" c1CreateFirst "L9").2
      = Except.error conflictPayload ∧
    atMostOneActive (runOp [] (LimitOp.create "u1" c1CreateFirst "L1")).1 :=
  ⟨c1_invariant_preservation.1 [existingExposureLimit] "u1" c1CreateFirst "L9"
      existingExposureLimit (List.mem_singleton.mpr rfl) rfl rfl rfl rfl
      (by norm_num [c1CreateFirst]),
   c1_invariant_preservation.2 [] (LimitOp.create "u1" c1CreateFirst "L1")
      List.Pairwise.nil rfl⟩
